import Mathlib

/-!
# Verification of the ui-workflow-capture core

Shallow embedding of the repository's data model and algorithms:

* `BrowserController.click` (action resolver with geometry disambiguation),
* the extractor's selector dedup, role inference and selector synthesis
  (`extractInteractiveElements`, `processElement`, `generateSelector`),
* the agent's workflow loop (`Agent.executeWorkflowLoop`), history store
  (`WorkflowState`) and the run-level try/catch/finally of `Agent.execute`,
* the decision-engine retry wrapper (modelled from the spec, see below).

JavaScript numbers on bounding boxes are modelled by `ℚ`; JS string
truthiness (`null`/`""` falsy) is modelled by `""`-is-absent on attribute
strings and `Option` where the TypeScript type is optional.
-/

namespace UIW

instance {ε α : Type} [DecidableEq ε] [DecidableEq α] : DecidableEq (Except ε α)
  | Except.error a, Except.error b =>
    if h : a = b then Decidable.isTrue (by rw [h])
    else Decidable.isFalse (by intro hh; cases hh; exact h rfl)
  | Except.error _, Except.ok _ => Decidable.isFalse (by intro hh; cases hh)
  | Except.ok _, Except.error _ => Decidable.isFalse (by intro hh; cases hh)
  | Except.ok a, Except.ok b =>
    if h : a = b then Decidable.isTrue (by rw [h])
    else Decidable.isFalse (by intro hh; cases hh; exact h rfl)

/-- A bounding box as produced by `getBoundingClientRect` /
`locator.boundingBox()`: viewport-relative geometry. -/
structure Box where
  x : ℚ
  y : ℚ
  width : ℚ
  height : ℚ
deriving DecidableEq, Repr

/-- The L1 distance used by `BrowserController.click` to compare a live
bounding box against the recorded target geometry:
`|Δx| + |Δy| + |Δwidth| + |Δheight|`. -/
def l1dist (b t : Box) : ℚ :=
  |b.x - t.x| + |b.y - t.y| + |b.width - t.width| + |b.height - t.height|

/-- The geometry-matching loop of `BrowserController.click` (part_003 lines
96–114): scan the selector's matched nodes in DOM order (index `i` onward), skip nodes whose
`boundingBox()` is null, and keep the candidate with the strictly smallest
L1 difference seen so far (`diff < smallestDifference`, initial value
`Infinity` modelled by accumulator `none`). -/
def bestMatchAux (t : Box) : ℕ → List (Option Box) → Option (ℕ × Box × ℚ) → Option (ℕ × Box × ℚ)
  | _, [], acc => acc
  | i, none :: rest, acc => bestMatchAux t (i + 1) rest acc
  | i, some b :: rest, none => bestMatchAux t (i + 1) rest (some (i, b, l1dist b t))
  | i, some b :: rest, some (j, bb, s) =>
    bestMatchAux t (i + 1) rest
      (if l1dist b t < s then some (i, b, l1dist b t) else some (j, bb, s))

/-- The geometry pass of `BrowserController.click`: it runs only when a
target box was supplied and the selector matched more than one node
(`targetBox && count > 1`), and yields the best match, if any node had a
bounding box. -/
def geomChoice (ms : List (Option Box)) (target : Option Box) : Option (ℕ × Box) :=
  match target with
  | some t =>
    if ms.length > 1 then (bestMatchAux t 0 ms none).map (fun p => (p.1, p.2.1))
    else none
  | none => none

/-- `BrowserController.click` (part_003 lines 81–140) restricted to its
resolution logic: `ms` lists, in DOM order, the current bounding box of
every live node matching the selector (`none` for a node whose
`boundingBox()` is null).  Returns the index of the clicked node and the
click point (the geometric center of its box), or an error when no box is
available (`Element not found or not visible`). -/
def clickResolve (ms : List (Option Box)) (target : Option Box) :
    Except Unit (ℕ × ℚ × ℚ) :=
  match geomChoice ms target with
  | some (i, box) => Except.ok (i, box.x + box.width / 2, box.y + box.height / 2)
  | none =>
    match ms.head? with
    | some (some box) => Except.ok (0, box.x + box.width / 2, box.y + box.height / 2)
    | _ => Except.error ()

example : clickResolve [some ⟨10, 20, 40, 20⟩] none = Except.ok (0, 30, 30) := by
  norm_num [clickResolve, geomChoice, bestMatchAux, l1dist]
example : clickResolve [] none = Except.error () := by
  norm_num [clickResolve, geomChoice, bestMatchAux, l1dist]
example :
    clickResolve [some ⟨0, 0, 4, 4⟩, some ⟨8, 8, 4, 4⟩] (some ⟨8, 8, 4, 4⟩) =
      Except.ok (1, 10, 10) := by
  norm_num [clickResolve, geomChoice, bestMatchAux, l1dist]
example : clickResolve [none, some ⟨8, 8, 4, 4⟩] none = Except.error () := by
  norm_num [clickResolve, geomChoice, bestMatchAux, l1dist]

lemma l1dist_nonneg (b t : Box) : 0 ≤ l1dist b t := by
  unfold l1dist
  positivity

lemma l1dist_eq_zero_iff (b t : Box) : l1dist b t = 0 ↔ b = t := by
  constructor
  · intro h
    have h1 : 0 ≤ |b.x - t.x| := abs_nonneg _
    have h2 : 0 ≤ |b.y - t.y| := abs_nonneg _
    have h3 : 0 ≤ |b.width - t.width| := abs_nonneg _
    have h4 : 0 ≤ |b.height - t.height| := abs_nonneg _
    unfold l1dist at h
    have e1 : |b.x - t.x| = 0 := by linarith
    have e2 : |b.y - t.y| = 0 := by linarith
    have e3 : |b.width - t.width| = 0 := by linarith
    have e4 : |b.height - t.height| = 0 := by linarith
    obtain ⟨bx, bY, bw, bh⟩ := b
    obtain ⟨tx, ty, tw, th⟩ := t
    simp only [abs_eq_zero, sub_eq_zero] at e1 e2 e3 e4
    simp_all
  · rintro rfl
    unfold l1dist
    simp

lemma l1dist_pos_of_ne {b t : Box} (h : b ≠ t) : 0 < l1dist b t :=
  lt_of_le_of_ne (l1dist_nonneg b t)
    (fun hz => h ((l1dist_eq_zero_iff b t).mp hz.symm))

lemma bestMatchAux_acc_zero (t : Box) (xs : List (Option Box)) :
    ∀ (i k : ℕ) (b : Box), bestMatchAux t i xs (some (k, b, 0)) = some (k, b, 0) := by
  induction xs with
  | nil => intro i k b; rfl
  | cons ob rest ih =>
    intro i k b
    cases ob with
    | none => exact ih (i + 1) k b
    | some b' =>
      have hnn : ¬ (l1dist b' t < 0) := not_lt.mpr (l1dist_nonneg b' t)
      simp only [bestMatchAux, hnn, if_false]
      exact ih (i + 1) k b

/-- The geometry loop returns the first zero-distance candidate when every
node before it differs from the target, no matter what comes after. -/
lemma bestMatchAux_finds (t : Box) :
    ∀ (xs : List (Option Box)) (K i : ℕ) (acc : Option (ℕ × Box × ℚ)),
      (acc = none ∨ ∃ k b s, acc = some (k, b, s) ∧ 0 < s) →
      xs[K]? = some (some t) →
      (∀ j, j < K → ∀ b, xs[j]? = some (some b) → b ≠ t) →
      bestMatchAux t i xs acc = some (i + K, t, 0) := by
  intro xs
  induction xs with
  | nil => intro K i acc _ hK _; simp at hK
  | cons ob rest ih =>
    intro K i acc hacc hK hbefore
    cases K with
    | zero =>
      simp only [List.getElem?_cons_zero, Option.some.injEq] at hK
      subst hK
      have hdiff : l1dist t t = 0 := (l1dist_eq_zero_iff t t).mpr rfl
      rcases hacc with rfl | ⟨k, b, s, rfl, hs⟩
      · simp only [bestMatchAux, hdiff]
        simpa using bestMatchAux_acc_zero t rest (i + 1) i t
      · simp only [bestMatchAux, hdiff, hs, if_pos]
        simpa using bestMatchAux_acc_zero t rest (i + 1) i t
    | succ K' =>
      have hK' : rest[K']? = some (some t) := by simpa using hK
      have hshift : ∀ j, j < K' → ∀ b, rest[j]? = some (some b) → b ≠ t := by
        intro j hj b hb
        exact hbefore (j + 1) (by omega) b (by simpa using hb)
      have harith : i + (K' + 1) = (i + 1) + K' := by omega
      cases ob with
      | none =>
        simp only [bestMatchAux]
        rw [harith]
        exact ih K' (i + 1) acc hacc hK' hshift
      | some b' =>
        have hbt : b' ≠ t := hbefore 0 (Nat.succ_pos _) b' (by simp)
        have hpos : 0 < l1dist b' t := l1dist_pos_of_ne hbt
        rcases hacc with rfl | ⟨k, b, s, rfl, hs⟩
        · simp only [bestMatchAux]
          rw [harith]
          exact ih K' (i + 1) (some (i, b', l1dist b' t))
            (Or.inr ⟨i, b', l1dist b' t, rfl, hpos⟩) hK' hshift
        · simp only [bestMatchAux]
          rw [harith]
          by_cases hlt : l1dist b' t < s
          · rw [if_pos hlt]
            exact ih K' (i + 1) (some (i, b', l1dist b' t))
              (Or.inr ⟨i, b', l1dist b' t, rfl, hpos⟩) hK' hshift
          · rw [if_neg hlt]
            exact ih K' (i + 1) (some (k, b, s)) (Or.inr ⟨k, b, s, rfl, hs⟩) hK' hshift

/-- C2: given `N` live nodes sharing one selector, each with a bounding box,
all boxes distinct, and a target geometry equal to node `K`'s box, the
resolver (`BrowserController.click`) selects node `K` exactly — the match
minimizing the L1 distance, which is `0` for node `K` — and clicks the
center of its box. -/
theorem c2_resolver_exact (bs : List Box) (K : ℕ) (hK : K < bs.length)
    (hdist : bs.Pairwise (· ≠ ·)) :
    clickResolve (bs.map some) (some bs[K]) =
      Except.ok (K, bs[K].x + bs[K].width / 2, bs[K].y + bs[K].height / 2) := by
  by_cases hlen : bs.length > 1
  · have hfind := bestMatchAux_finds bs[K] (bs.map some) K 0 none (Or.inl rfl)
      (by simp [List.getElem?_eq_getElem hK])
      (by
        intro j hj b hb
        have hjlen : j < bs.length := by omega
        rw [List.getElem?_map, List.getElem?_eq_getElem hjlen] at hb
        simp only [Option.map_some', Option.some.injEq] at hb
        have hne := List.pairwise_iff_getElem.mp hdist j K hjlen hK hj
        rw [hb] at hne
        exact hne)
    have hgc : geomChoice (bs.map some) (some bs[K]) = some (K, bs[K]) := by
      simp only [geomChoice, List.length_map]
      rw [if_pos hlen, hfind]
      simp
    simp only [clickResolve, hgc]
  · have h1 : bs.length = 1 := by omega
    have hK0 : K = 0 := by omega
    subst hK0
    obtain ⟨b, rest⟩ : ∃ b rest, bs = b :: rest := by
      cases bs with
      | nil => simp at h1
      | cons b rest => exact ⟨b, rest, rfl⟩
    obtain ⟨rest, rfl⟩ := rest
    have hrest : rest = [] := by
      cases rest with
      | nil => rfl
      | cons c cs => simp at h1
    subst hrest
    simp [clickResolve, geomChoice]

/-- Closed instance of `c2_resolver_exact`: two nodes share the selector,
the target geometry equals the second node's current box, and the resolver
clicks the second node at its center. -/
theorem c2_witness :
    clickResolve [some ⟨0, 0, 10, 10⟩, some ⟨5, 5, 10, 10⟩] (some ⟨5, 5, 10, 10⟩) =
      Except.ok (1, 10, 10) := by
  have h := c2_resolver_exact [⟨0, 0, 10, 10⟩, ⟨5, 5, 10, 10⟩] 1 (by norm_num)
    (by simp [Box.mk.injEq])
  norm_num at h
  exact h

/-- C6: `BrowserController.click` raises the element-not-found error exactly
when the selector matches zero live nodes or the finally chosen node yields
no bounding box; when the geometry pass is not taken (no target geometry, a
unique match, or no boxed candidate), the resolver falls back to the first
DOM-order match rather than failing. -/
theorem c6_notfound_iff (ms : List (Option Box)) (target : Option Box) :
    (clickResolve ms target = Except.error () ↔
      ms = [] ∨ (geomChoice ms target = none ∧ ms.head? = some none)) ∧
    (∀ b rest, geomChoice ms target = none → ms = some b :: rest →
      clickResolve ms target = Except.ok (0, b.x + b.width / 2, b.y + b.height / 2)) := by
  constructor
  · constructor
    · intro herr
      unfold clickResolve at herr
      cases hg : geomChoice ms target with
      | some p =>
        obtain ⟨i, box⟩ := p
        rw [hg] at herr
        simp at herr
      | none =>
        rw [hg] at herr
        cases hh : ms.head? with
        | none => exact Or.inl (List.head?_eq_none_iff.mp hh)
        | some ob =>
          cases ob with
          | none => exact Or.inr ⟨rfl, rfl⟩
          | some b =>
            rw [hh] at herr
            simp at herr
    · rintro (rfl | ⟨hg, hh⟩)
      · have hg0 : geomChoice [] target = none := by
          cases target <;> simp [geomChoice]
        unfold clickResolve
        rw [hg0]
        rfl
      · unfold clickResolve
        rw [hg, hh]
  · intro b rest hg hms
    subst hms
    unfold clickResolve
    rw [hg]
    simp

/-- Closed instance of `c6_notfound_iff`: two matches, no target geometry —
the resolver falls back to the first DOM-order match and succeeds. -/
theorem c6_witness :
    clickResolve [some ⟨2, 4, 6, 8⟩, none] none = Except.ok (0, 5, 8) := by
  have h := (c6_notfound_iff [some ⟨2, 4, 6, 8⟩, none] none).2 ⟨2, 4, 6, 8⟩ [none] rfl rfl
  norm_num at h
  exact h

/-! ## Element extraction: dedup, role inference, selector synthesis -/

/-- One extracted interactive element (`UIElement` in types.ts), restricted
to the fields the verified claims use. -/
structure UIElement where
  selector : String
  text : String := ""
  role : String := ""
  boundingBox : Option Box := none
deriving DecidableEq, Repr

/-- The selector-dedup pass of `extractInteractiveElements` (part_003 lines
419–424): walk the processed records in encounter order and keep a record
only when its selector has not been seen (`if (!selectorToElement.has(...))
selectorToElement.set(...)`); `Map` preserves first-insertion order, so
`values()` lists the kept records in encounter order. -/
def selectorDedupAux : List String → List UIElement → List UIElement
  | _, [] => []
  | seen, e :: rest =>
    if e.selector ∈ seen then selectorDedupAux seen rest
    else e :: selectorDedupAux (e.selector :: seen) rest

/-- The element list one extraction pass returns, as a function of the
ordered records produced by the criteria passes (`processElement` encounter
order). -/
def selectorDedup (l : List UIElement) : List UIElement := selectorDedupAux [] l

example :
    selectorDedup [⟨"a", "x", "", none⟩, ⟨"b", "y", "", none⟩, ⟨"a", "z", "", none⟩] =
      [⟨"a", "x", "", none⟩, ⟨"b", "y", "", none⟩] := by decide

lemma selectorDedupAux_sublist (seen : List String) (l : List UIElement) :
    (selectorDedupAux seen l).Sublist l := by
  induction l generalizing seen with
  | nil => simp [selectorDedupAux]
  | cons e rest ih =>
    unfold selectorDedupAux
    by_cases h : e.selector ∈ seen
    · rw [if_pos h]
      exact (ih seen).trans (List.sublist_cons_self e rest)
    · rw [if_neg h]
      exact List.Sublist.cons₂ e (ih (e.selector :: seen))

lemma mem_selectorDedupAux (seen : List String) (l : List UIElement) :
    ∀ e ∈ selectorDedupAux seen l, e.selector ∉ seen := by
  induction l generalizing seen with
  | nil => simp [selectorDedupAux]
  | cons a rest ih =>
    intro e he
    unfold selectorDedupAux at he
    by_cases h : a.selector ∈ seen
    · rw [if_pos h] at he
      exact ih seen e he
    · rw [if_neg h] at he
      rcases List.mem_cons.mp he with rfl | he'
      · exact h
      · have := ih (a.selector :: seen) e he'
        intro hc
        exact this (List.mem_cons_of_mem _ hc)

lemma selectorDedupAux_pairwise (seen : List String) (l : List UIElement) :
    (selectorDedupAux seen l).Pairwise (fun a b => a.selector ≠ b.selector) := by
  induction l generalizing seen with
  | nil => simp [selectorDedupAux]
  | cons a rest ih =>
    unfold selectorDedupAux
    by_cases h : a.selector ∈ seen
    · rw [if_pos h]
      exact ih seen
    · rw [if_neg h]
      refine List.Pairwise.cons ?_ (ih (a.selector :: seen))
      intro e he
      have := mem_selectorDedupAux (a.selector :: seen) rest e he
      intro hc
      exact this (by rw [← hc]; exact List.mem_cons_self _ _)

lemma selectorDedupAux_find? (l : List UIElement) :
    ∀ (seen : List String) (s : String), s ∉ seen →
      (selectorDedupAux seen l).find? (fun e => e.selector == s) =
        l.find? (fun e => e.selector == s) := by
  induction l with
  | nil => intro seen s _; rfl
  | cons a rest ih =>
    intro seen s hs
    unfold selectorDedupAux
    by_cases h : a.selector ∈ seen
    · rw [if_pos h]
      have hne : (a.selector == s) = false := by
        simp only [beq_eq_false_iff_ne, ne_eq]
        intro hc
        exact hs (hc ▸ h)
      rw [List.find?_cons_of_neg _ (by simp [hne]), ih seen s hs]
    · rw [if_neg h]
      by_cases hp : a.selector = s
      · rw [List.find?_cons_of_pos _ (by simp [hp]), List.find?_cons_of_pos _ (by simp [hp])]
      · rw [List.find?_cons_of_neg _ (by simp [hp]), List.find?_cons_of_neg _ (by simp [hp])]
        refine ih (a.selector :: seen) s ?_
        intro hc
        rcases List.mem_cons.mp hc with hc' | hc'
        · exact hp hc'.symm
        · exact hs hc'

/-- C3: within one observation, the element list contains at most one record
per selector string (pairwise-distinct selectors), the record kept for a
selector is the first one encountered under the fixed criteria pass order
(`find?` over the deduplicated list agrees with `find?` over the raw
encounter order), and the surviving records are a subsequence of the
encounter order (later same-selector records are dropped, nothing is added
or reordered). -/
theorem c3_dedup_first_wins (l : List UIElement) :
    (selectorDedup l).Pairwise (fun a b => a.selector ≠ b.selector) ∧
    (∀ s : String,
      (selectorDedup l).find? (fun e => e.selector == s) =
        l.find? (fun e => e.selector == s)) ∧
    (selectorDedup l).Sublist l :=
  ⟨selectorDedupAux_pairwise [] l,
   fun s => selectorDedupAux_find? l [] s (List.not_mem_nil s),
   selectorDedupAux_sublist [] l⟩

/-- The raw attributes of one DOM node as read by `processElement` /
`generateSelector` (part_003 lines 275–388).  `getAttribute` returning
`null` and empty DOM string properties are both JS-falsy, so absent string
attributes are modelled by `""`. -/
structure DomNode where
  tagName : String
  ariaRole : String := ""
  ariaLabel : String := ""
  placeholder : String := ""
  testId : String := ""
  name : String := ""
  type : String := ""
  value : String := ""
  contentEditable : Bool := false
  cursor : String := ""
  textContent : String := ""
  id : String := ""
  className : String := ""
deriving DecidableEq, Repr

/-- JS `String.prototype.trim`, modelled over the character list. -/
def jsTrim (s : String) : String :=
  String.mk (((s.data.dropWhile Char.isWhitespace).reverse.dropWhile Char.isWhitespace).reverse)

/-- JS `String.prototype.slice(0, k)`, modelled over the character list. -/
def jsSlice (k : ℕ) (s : String) : String :=
  String.mk (s.data.take k)

/-- JS `text.replace(/"/g, CHR(92) + CHR(34))`: escape every double quote.
Single-character pattern, so a character fold is a faithful model. -/
def escapeQuotes (s : String) : String :=
  String.mk (s.data.foldr (fun c acc => if c = '"' then '\\' :: '"' :: acc else c :: acc) [])

/-- Split a character list at a separator character (model of JS
`String.prototype.split` with a single-character separator: adjacent
separators produce empty groups, the empty string yields one empty group). -/
def splitChar (sep : Char) : List Char → List (List Char)
  | [] => [[]]
  | c :: rest =>
    let r := splitChar sep rest
    if c = sep then [] :: r
    else
      match r with
      | [] => [[c]]
      | g :: gs => (c :: g) :: gs

/-- JS `el.className.split(CHR(32))`. -/
def jsSplitOnSpace (s : String) : List String :=
  (splitChar ' ' s.data).map String.mk

/-- JS `/^[0-9]/.test(c)`. -/
def jsStartsWithDigit (s : String) : Bool :=
  match s.data with
  | [] => false
  | c :: _ => c.isDigit

/-- The `text` value `generateSelector` computes:
`(el.textContent OR empty).trim().slice(0, 100)`. -/
def selTextOf (n : DomNode) : String := jsSlice 100 (jsTrim n.textContent)

/-- `role` inference of `processElement` (part_003 lines 350–359):
`role = ariaRole || tagName` followed by the typed-input / textarea /
content-editable / pointer-cursor overrides. -/
def textLikeInputTypes : List String := ["text", "email", "password", "search", "tel", "url"]

def inferRole (n : DomNode) : String :=
  if n.tagName = "input" ∧ n.type ≠ "" then
    if n.type ∈ textLikeInputTypes then "textbox" else n.type
  else if n.tagName = "textarea" then "textbox"
  else if n.contentEditable then "textbox"
  else if (n.tagName = "div" ∨ n.tagName = "span") ∧ n.cursor = "pointer" then "button"
  else if n.ariaRole ≠ "" then n.ariaRole
  else n.tagName

example : inferRole { tagName := "button", ariaRole := "tab" } = "tab" := by decide
example : inferRole { tagName := "select" } = "select" := by decide
example : inferRole { tagName := "input", type := "email" } = "textbox" := by decide
example : inferRole { tagName := "input", type := "checkbox" } = "checkbox" := by decide

/-- C4 counterexample: an `input` with an explicit ARIA role and a `type`
attribute.  The claim says the explicit ARIA role (`switch`) wins, but
`processElement` overrides it with the typed-input mapping and yields
`checkbox`. -/
theorem c4_counterexample :
    inferRole { tagName := "input", ariaRole := "switch", type := "checkbox" } = "checkbox" ∧
    ("checkbox" : String) ≠ "switch" := by
  exact ⟨by decide, by decide⟩

/-- C4 (amended): the typed-input mapping, the `textarea` and
content-editable rules, and the pointer-cursor `div`/`span` rule apply even
when an explicit ARIA role is present; only when none of those overrides
fires does the explicit ARIA role win over the tag-name default.  The
typed-input mapping sends text-like types to `textbox` and passes other
types through. -/
theorem c4_role_inference (n : DomNode) :
    (n.tagName = "input" → n.type ≠ "" → n.type ∈ textLikeInputTypes →
      inferRole n = "textbox") ∧
    (n.tagName = "input" → n.type ≠ "" → n.type ∉ textLikeInputTypes →
      inferRole n = n.type) ∧
    (n.tagName = "textarea" → inferRole n = "textbox") ∧
    (n.tagName ≠ "input" → n.tagName ≠ "textarea" → n.contentEditable = true →
      inferRole n = "textbox") ∧
    ((n.tagName = "div" ∨ n.tagName = "span") → n.cursor = "pointer" →
      n.contentEditable = false → inferRole n = "button") ∧
    (¬(n.tagName = "input" ∧ n.type ≠ "") → n.tagName ≠ "textarea" →
      n.contentEditable = false →
      ¬((n.tagName = "div" ∨ n.tagName = "span") ∧ n.cursor = "pointer") →
      inferRole n = if n.ariaRole ≠ "" then n.ariaRole else n.tagName) := by
  refine ⟨?_, ?_, ?_, ?_, ?_, ?_⟩
  · intro h1 h2 h3
    simp [inferRole, h1, h2, h3]
  · intro h1 h2 h3
    simp [inferRole, h1, h2, h3]
  · intro h1
    simp [inferRole, h1]
  · intro h1 h2 h3
    simp [inferRole, h1, h2, h3]
  · rintro (h1 | h1) h2 h3
    · simp [inferRole, h1, h2, h3]
    · simp [inferRole, h1, h2, h3]
  · intro h1 h2 h3 h4
    rw [inferRole, if_neg h1, if_neg h2, if_neg (by simp [h3]), if_neg h4]

/-- Closed instance of `c4_role_inference`: a plain `div` with a pointer
cursor has role `button`, and a node with no override and an explicit ARIA
role keeps that role. -/
theorem c4_witness :
    inferRole { tagName := "div", cursor := "pointer" } = "button" ∧
    inferRole { tagName := "button", ariaRole := "tab" } = "tab" := by
  constructor
  · exact (c4_role_inference { tagName := "div", cursor := "pointer" }).2.2.2.2.1
      (Or.inl rfl) rfl rfl
  · have h := (c4_role_inference { tagName := "button", ariaRole := "tab" }).2.2.2.2.2
      (by decide) (by decide) rfl (by decide)
    simpa using h

/-! ## Selector synthesis (`generateSelector`, part_003 lines 275–320) -/

/-- Rules 5–8 of the selector priority chain: content-editable, whitelisted
ARIA role, `name` attribute, then id / sanitized class tokens / bare tag. -/
def fallbackSelector (n : DomNode) : String :=
  if n.id ≠ "" then n.tagName ++ "[id=\"" ++ n.id ++ "\"]"
  else if n.className ≠ "" then
    let classes := String.intercalate "."
      (((jsSplitOnSpace n.className).filter
          (fun c => c != "" && !jsStartsWithDigit c)).take 2)
    if classes ≠ "" then n.tagName ++ "." ++ classes else n.tagName
  else n.tagName

def selectorTail (n : DomNode) : String :=
  if n.contentEditable then n.tagName ++ "[contenteditable=\"true\"]"
  else if n.ariaRole = "button" ∨ n.ariaRole = "link" ∨ n.ariaRole = "textbox" ∨
      n.ariaRole = "checkbox" ∨ n.ariaRole = "radio" then
    n.tagName ++ "[role=\"" ++ n.ariaRole ++ "\"]"
  else if n.name ≠ "" then n.tagName ++ "[name=\"" ++ n.name ++ "\"]"
  else fallbackSelector n

/-- The selector rule 4 emits when it fires: tag combined with the exact
visible text, quotes escaped. -/
def textMatchSelector (n : DomNode) : String :=
  n.tagName ++ ":has-text(\"" ++ escapeQuotes (selTextOf n) ++ "\")"

/-- The guard of rule 4 in the source: non-empty trimmed text of at most 50
characters on a `button`/`a`/`div`/`span` tag or a node whose explicit role
is `button`/`link`. -/
def textRuleGuard (n : DomNode) : Prop :=
  selTextOf n ≠ "" ∧ (selTextOf n).length ≤ 50 ∧
    (n.tagName = "button" ∨ n.tagName = "a" ∨ n.tagName = "div" ∨ n.tagName = "span" ∨
      n.ariaRole = "button" ∨ n.ariaRole = "link")

instance (n : DomNode) : Decidable (textRuleGuard n) := by
  unfold textRuleGuard
  infer_instance

/-- `generateSelector` (part_003 lines 275–320): the strict priority chain —
test id, accessible label, placeholder on text inputs, text match, then the
tail rules 5–8. -/
def generateSelector (n : DomNode) : String :=
  if n.testId ≠ "" then "[data-testid=\"" ++ n.testId ++ "\"]"
  else if n.ariaLabel ≠ "" then
    if n.ariaRole ≠ "" then n.tagName ++ "[aria-label=\"" ++ n.ariaLabel ++ "\"]"
    else "[aria-label=\"" ++ n.ariaLabel ++ "\"]"
  else if n.placeholder ≠ "" ∧ (n.tagName = "input" ∨ n.tagName = "textarea") then
    n.tagName ++ "[placeholder=\"" ++ n.placeholder ++ "\"]"
  else if textRuleGuard n then textMatchSelector n
  else selectorTail n

example :
    generateSelector { tagName := "button", testId := "save", ariaLabel := "Save" } =
      "[data-testid=\"save\"]" := by decide
example :
    generateSelector { tagName := "button", textContent := "  Save  " } =
      "button:has-text(\"Save\")" := by decide
example :
    generateSelector { tagName := "input", placeholder := "Email" } =
      "input[placeholder=\"Email\"]" := by decide
example :
    generateSelector { tagName := "div", className := "btn 9x primary extra" } =
      "div.btn.primary" := by decide

/-- Definition following the spec's words, for comparison only: §4.2 rule 4
and §8 call a node "button/link-like (by tag or role)" — tag `button` or
`a`, or explicit role `button` or `link`. -/
def specButtonLinkLike (n : DomNode) : Bool :=
  n.tagName == "button" || n.tagName == "a" || n.ariaRole == "button" || n.ariaRole == "link"

/-- C5 counterexample: a bare `div` with short text and no test id, label,
placeholder or role.  It is not button/link-like in the spec's sense, yet
`generateSelector` fires the text-match rule on it instead of falling
through to the later rules. -/
theorem c5_counterexample :
    generateSelector { tagName := "div", textContent := "Hello" } =
      "div:has-text(\"Hello\")" ∧
    specButtonLinkLike { tagName := "div", textContent := "Hello" } = false := by
  exact ⟨by decide, by decide⟩

/-- C5 (amended): with no test id, no accessible label and no applicable
placeholder, the text-match rule fires exactly when the trimmed text is
non-empty, at most 50 characters, and the tag is `button`, `a`, `div` or
`span`, or the explicit role is `button` or `link` — so bare `div`/`span`
nodes with short text also receive text-match selectors; when the guard
fails the chain falls through to rules 5–8. -/
theorem c5_text_rule (n : DomNode)
    (h1 : n.testId = "") (h2 : n.ariaLabel = "")
    (h3 : ¬(n.placeholder ≠ "" ∧ (n.tagName = "input" ∨ n.tagName = "textarea"))) :
    (textRuleGuard n → generateSelector n = textMatchSelector n) ∧
    (¬ textRuleGuard n → generateSelector n = selectorTail n) := by
  constructor
  · intro hg
    rw [generateSelector, if_neg (by simp [h1]), if_neg (by simp [h2]), if_neg h3,
      if_pos hg]
  · intro hg
    rw [generateSelector, if_neg (by simp [h1]), if_neg (by simp [h2]), if_neg h3,
      if_neg hg]

/-- Closed instance of `c5_text_rule`: the text rule fires on a short-text
button, and a long-text (>50 chars) button falls through to the tail
rules (here, the bare tag). -/
theorem c5_witness :
    generateSelector { tagName := "button", textContent := "Save" } =
      "button:has-text(\"Save\")" ∧
    generateSelector
        { tagName := "button",
          textContent := "This label is much much much much much too long to match" } =
      "button" := by
  constructor
  · have h := (c5_text_rule { tagName := "button", textContent := "Save" }
      rfl rfl (by decide)).1 (by decide)
    rw [h]
    decide
  · have h := (c5_text_rule
      { tagName := "button",
        textContent := "This label is much much much much much too long to match" }
      rfl rfl (by decide)).2 (by decide)
    rw [h]
    decide

/-! ## The workflow loop (`Agent.executeWorkflowLoop`, agent.ts lines 113–226) -/

/-- A decision-engine response (`LLMDecision` in types.ts).  The `action`
field is a plain string: the response is `JSON.parse`d, so at runtime any
string can appear. -/
structure LLMDecision where
  action : String
  selector : Option String := none
  text : Option String := none
  reasoning : String := ""
  completed : Bool := false
deriving DecidableEq, Repr

/-- What actually happened in one step (`ActionExecuted` in types.ts,
modelled as the tagged union the variants form). -/
inductive ActionExecuted where
  | click (selector : String) (x y : ℚ)
  | typeText (selector : String) (text : String)
  | navigate (url : String)
  | complete
deriving DecidableEq, Repr

/-- One recorded step (`WorkflowStep` in types.ts, timestamp omitted). -/
structure WorkflowStep where
  stepNumber : ℕ
  action : ActionExecuted
  reasoning : String
  screenshotPath : String
deriving DecidableEq, Repr

/-- A browser mutation issued during the Acting phase. -/
inductive BrowserEffect where
  | clickAt (selector : String) (x y : ℚ)
  | fillText (selector : String) (text : String)
  | navEff (url : String)
deriving DecidableEq, Repr

/-- An observation (`PageState` in types.ts, screenshot omitted). -/
structure PageStateM where
  url : String
  title : String := ""
  interactiveElements : List UIElement := []

/-- The browser facts one loop iteration sees: the pre-action observation
(`capturePageState`) and, per selector, the bounding boxes of the live nodes
it currently matches (what `page.locator(selector)` resolves against at
acting time). -/
structure IterEnv where
  pageState : PageStateM
  live : String → List (Option Box)

/-- `WorkflowState.getCurrentStepNumber` (part_001 lines 38–40). -/
def getCurrentStepNumber (steps : List WorkflowStep) : ℕ := steps.length

/-- The per-step screenshot file name
(`step-NUMBER-ACTION.png`, agent.ts line 136). -/
def screenshotName (n : ℕ) (action : String) : String :=
  "step-" ++ toString n ++ "-" ++ action ++ ".png"

/-- The Acting phase of one loop iteration: the `switch (decision.action)`
of agent.ts lines 140–187, including the selector guards, the target-box
lookup from the pre-action observation, and dispatch to
`BrowserController.click` / `type`.  Returns the browser mutations issued
and either the recorded `ActionExecuted` together with the updated
completion flag (`completed = (action is complete) or decision.completed`,
lines 178–183 and 218–220), or the thrown error. -/
def runStep (env : IterEnv) (d : LLMDecision) :
    List BrowserEffect × Except String (ActionExecuted × Bool) :=
  if d.action = "click" then
    match d.selector with
    | none => ([], Except.error "Click action requires selector")
    | some sel =>
      if sel = "" then ([], Except.error "Click action requires selector")
      else
        match clickResolve (env.live sel)
          ((env.pageState.interactiveElements.find? (fun el => el.selector == sel)).bind
            (fun el => el.boundingBox)) with
        | Except.ok (_, cx, cy) =>
          ([BrowserEffect.clickAt sel cx cy],
            Except.ok (ActionExecuted.click sel cx cy, d.completed))
        | Except.error _ =>
          ([], Except.error ("Element not found or not visible: " ++ sel))
  else if d.action = "type" then
    match d.selector, d.text with
    | some sel, some txt =>
      if sel = "" ∨ txt = "" then ([], Except.error "Type action requires selector and text")
      else
        match (env.live sel).head? with
        | some _ =>
          ([BrowserEffect.fillText sel txt],
            Except.ok (ActionExecuted.typeText sel txt, d.completed))
        | none => ([], Except.error ("Element not found or not visible: " ++ sel))
    | _, _ => ([], Except.error "Type action requires selector and text")
  else if d.action = "navigate" then
    ([], Except.ok (ActionExecuted.navigate env.pageState.url, d.completed))
  else if d.action = "complete" then
    ([], Except.ok (ActionExecuted.complete, true))
  else ([], Except.error ("Unknown action type: " ++ d.action))

/-- The `while (!completed && getCurrentStepNumber() < maxSteps)` loop of
`Agent.executeWorkflowLoop` (agent.ts lines 120–221): observe (`env n`),
decide (`decider n`, indexed by the current step number), act (`runStep`),
and append the step (`WorkflowState.addStep` gives it `steps.length` as its
step number).  An uncaught error aborts the loop. -/
def loopGo (decider : ℕ → LLMDecision) (env : ℕ → IterEnv) (maxSteps : ℕ)
    (steps : List WorkflowStep) (completed : Bool) :
    Except String (List WorkflowStep × Bool) :=
  if h : completed = false ∧ getCurrentStepNumber steps < maxSteps then
    match runStep (env (getCurrentStepNumber steps)) (decider (getCurrentStepNumber steps)) with
    | (_, Except.error e) => Except.error e
    | (_, Except.ok (act, comp)) =>
      loopGo decider env maxSteps
        (steps ++ [{ stepNumber := getCurrentStepNumber steps, action := act,
                     reasoning := (decider (getCurrentStepNumber steps)).reasoning,
                     screenshotPath := screenshotName (getCurrentStepNumber steps)
                       ((decider (getCurrentStepNumber steps)).action) }])
        comp
  else Except.ok (steps, completed)
termination_by maxSteps - steps.length
decreasing_by
  simp only [getCurrentStepNumber] at h
  simp only [List.length_append, List.length_cons, List.length_nil]
  omega

/-- The history after `captureInitialState` (agent.ts lines 72–111): the
bootstrap navigation recorded as step 0 with reasoning
`Initial page load`. -/
def initialSteps (url0 : String) : List WorkflowStep :=
  [{ stepNumber := 0, action := ActionExecuted.navigate url0,
     reasoning := "Initial page load", screenshotPath := "step-0-initial.png" }]

/-- The run summary artifact (`WorkflowState.exportSummary`, part_001 lines
42–65), restricted to the fields the claims use: `totalSteps` is
`this.steps.length`. -/
structure WorkflowSummary where
  task : String
  totalSteps : ℕ
deriving DecidableEq, Repr

def exportSummary (task : String) (steps : List WorkflowStep) : WorkflowSummary :=
  { task := task, totalSteps := steps.length }

lemma runStep_completed (env : IterEnv) (d : LLMDecision) (effs : List BrowserEffect)
    (act : ActionExecuted) (comp : Bool)
    (hres : runStep env d = (effs, Except.ok (act, comp))) :
    comp = d.completed ∨ (d.action = "complete" ∧ comp = true) := by
  unfold runStep at hres
  repeat' split at hres
  all_goals simp_all

lemma loopGo_never_complete (decider : ℕ → LLMDecision) (env : ℕ → IterEnv) (maxSteps : ℕ)
    (hnc : ∀ n, (decider n).action ≠ "complete" ∧ (decider n).completed = false) :
    ∀ (fuel : ℕ) (steps steps' : List WorkflowStep) (c' : Bool),
      maxSteps - steps.length ≤ fuel →
      loopGo decider env maxSteps steps false = Except.ok (steps', c') →
      c' = false ∧ steps'.length = max steps.length maxSteps := by
  intro fuel
  induction fuel with
  | zero =>
    intro steps steps' c' hfuel hok
    have hge : maxSteps ≤ steps.length := by omega
    unfold loopGo at hok
    rw [dif_neg (by simp [getCurrentStepNumber]; omega)] at hok
    simp only [Except.ok.injEq, Prod.mk.injEq] at hok
    refine ⟨hok.2.symm, ?_⟩
    rw [← hok.1]
    omega
  | succ fuel ih =>
    intro steps steps' c' hfuel hok
    by_cases hlt : steps.length < maxSteps
    · unfold loopGo at hok
      rw [dif_pos ⟨rfl, by simpa [getCurrentStepNumber] using hlt⟩] at hok
      cases hres : runStep (env (getCurrentStepNumber steps))
          (decider (getCurrentStepNumber steps)) with
      | mk effs res =>
        rw [hres] at hok
        cases res with
        | error e => simp at hok
        | ok p =>
          obtain ⟨act, comp⟩ := p
          have hcomp : comp = false := by
            rcases runStep_completed _ _ _ _ _ hres with h | h
            · rw [h]
              exact (hnc (getCurrentStepNumber steps)).2
            · exact absurd h.1 (hnc (getCurrentStepNumber steps)).1
          subst hcomp
          simp only at hok
          have := ih _ steps' c' (by simp; omega) hok
          refine ⟨this.1, ?_⟩
          rw [this.2]
          simp only [List.length_append, List.length_cons, List.length_nil]
          omega
    · unfold loopGo at hok
      rw [dif_neg (by simp [getCurrentStepNumber]; omega)] at hok
      simp only [Except.ok.injEq, Prod.mk.injEq] at hok
      refine ⟨hok.2.symm, ?_⟩
      rw [← hok.1]
      omega

/-- C1 counterexample: with `maxSteps = 2` and a decision engine that always
answers a non-completing `navigate`, the run performs one action cycle (not
two) and the exported summary records `totalSteps = 2`, not
`maxSteps + 1 = 3`. -/
theorem c1_counterexample :
    loopGo (fun _ => { action := "navigate", reasoning := "r" })
        (fun _ => { pageState := { url := "u" }, live := fun _ => [] }) 2
        (initialSteps "u") false =
      Except.ok
        ([{ stepNumber := 0, action := ActionExecuted.navigate "u",
            reasoning := "Initial page load", screenshotPath := "step-0-initial.png" },
          { stepNumber := 1, action := ActionExecuted.navigate "u",
            reasoning := "r", screenshotPath := screenshotName 1 "navigate" }], false) ∧
    (exportSummary "t"
        [{ stepNumber := 0, action := ActionExecuted.navigate "u",
           reasoning := "Initial page load", screenshotPath := "step-0-initial.png" },
         { stepNumber := 1, action := ActionExecuted.navigate "u",
           reasoning := "r", screenshotPath := screenshotName 1 "navigate" }]).totalSteps ≠ 2 + 1 := by
  have h1 : runStep
      ({ pageState := { url := "u" }, live := fun _ => [] } : IterEnv)
      ({ action := "navigate", reasoning := "r" } : LLMDecision) =
      ([], Except.ok (ActionExecuted.navigate "u", false)) := by rfl
  constructor
  · have e1 : loopGo (fun _ => { action := "navigate", reasoning := "r" })
        (fun _ => { pageState := { url := "u" }, live := fun _ => [] }) 2
        (initialSteps "u") false =
        loopGo (fun _ => { action := "navigate", reasoning := "r" })
          (fun _ => { pageState := { url := "u" }, live := fun _ => [] }) 2
          [{ stepNumber := 0, action := ActionExecuted.navigate "u",
             reasoning := "Initial page load", screenshotPath := "step-0-initial.png" },
           { stepNumber := 1, action := ActionExecuted.navigate "u",
             reasoning := "r", screenshotPath := screenshotName 1 "navigate" }] false := by
      rw [loopGo.eq_def, dif_pos ⟨rfl, by decide⟩, h1]
      rfl
    have e2 : loopGo (fun _ => { action := "navigate", reasoning := "r" })
        (fun _ => { pageState := { url := "u" }, live := fun _ => [] }) 2
        [{ stepNumber := 0, action := ActionExecuted.navigate "u",
           reasoning := "Initial page load", screenshotPath := "step-0-initial.png" },
         { stepNumber := 1, action := ActionExecuted.navigate "u",
           reasoning := "r", screenshotPath := screenshotName 1 "navigate" }] false =
        Except.ok
          ([{ stepNumber := 0, action := ActionExecuted.navigate "u",
              reasoning := "Initial page load", screenshotPath := "step-0-initial.png" },
            { stepNumber := 1, action := ActionExecuted.navigate "u",
              reasoning := "r", screenshotPath := screenshotName 1 "navigate" }], false) := by
      rw [loopGo.eq_def, dif_neg (by decide)]
    exact e1.trans e2
  · decide

/-- C1 (amended): if the decision engine never sets `completed = true` and
never returns a `complete` action and the loop runs to exhaustion without an
error, then the run ends non-completed, the exported summary's `totalSteps`
equals `maxSteps` (bootstrap step 0 included), and the number of action
cycles performed beyond the bootstrap step is `maxSteps - 1`. -/
theorem c1_loop_exhaustion (decider : ℕ → LLMDecision) (env : ℕ → IterEnv)
    (maxSteps : ℕ) (url task : String) (steps' : List WorkflowStep) (c' : Bool)
    (hmax : 1 ≤ maxSteps)
    (hnc : ∀ n, (decider n).action ≠ "complete" ∧ (decider n).completed = false)
    (hok : loopGo decider env maxSteps (initialSteps url) false = Except.ok (steps', c')) :
    c' = false ∧
    (exportSummary task steps').totalSteps = maxSteps ∧
    steps'.length - (initialSteps url).length = maxSteps - 1 := by
  have h := loopGo_never_complete decider env maxSteps hnc
    (maxSteps - (initialSteps url).length) (initialSteps url) steps' c' le_rfl hok
  have hlen : (initialSteps url).length = 1 := rfl
  rw [hlen] at h
  refine ⟨h.1, ?_, ?_⟩
  · simp only [exportSummary]
    rw [h.2]
    omega
  · rw [hlen, h.2]
    omega

/-- Closed instance of `c1_loop_exhaustion` at `maxSteps = 3` with an
always-navigate decision engine. -/
theorem c1_witness :
    ∃ steps' : List WorkflowStep,
      loopGo (fun _ => { action := "navigate", reasoning := "r" })
          (fun _ => { pageState := { url := "u" }, live := fun _ => [] }) 3
          (initialSteps "u") false = Except.ok (steps', false) ∧
      (exportSummary "t" steps').totalSteps = 3 := by
  have hrun : loopGo (fun _ => { action := "navigate", reasoning := "r" })
      (fun _ => { pageState := { url := "u" }, live := fun _ => [] }) 3
      (initialSteps "u") false =
      Except.ok
        ([{ stepNumber := 0, action := ActionExecuted.navigate "u",
            reasoning := "Initial page load", screenshotPath := "step-0-initial.png" },
          { stepNumber := 1, action := ActionExecuted.navigate "u",
            reasoning := "r", screenshotPath := screenshotName 1 "navigate" },
          { stepNumber := 2, action := ActionExecuted.navigate "u",
            reasoning := "r", screenshotPath := screenshotName 2 "navigate" }], false) := by
    have h1 : runStep
        ({ pageState := { url := "u" }, live := fun _ => [] } : IterEnv)
        ({ action := "navigate", reasoning := "r" } : LLMDecision) =
        ([], Except.ok (ActionExecuted.navigate "u", false)) := by rfl
    have e1 : loopGo (fun _ => { action := "navigate", reasoning := "r" })
        (fun _ => { pageState := { url := "u" }, live := fun _ => [] }) 3
        (initialSteps "u") false =
        loopGo (fun _ => { action := "navigate", reasoning := "r" })
          (fun _ => { pageState := { url := "u" }, live := fun _ => [] }) 3
          [{ stepNumber := 0, action := ActionExecuted.navigate "u",
             reasoning := "Initial page load", screenshotPath := "step-0-initial.png" },
           { stepNumber := 1, action := ActionExecuted.navigate "u",
             reasoning := "r", screenshotPath := screenshotName 1 "navigate" }] false := by
      rw [loopGo.eq_def, dif_pos ⟨rfl, by decide⟩, h1]
      rfl
    have e2 : loopGo (fun _ => { action := "navigate", reasoning := "r" })
        (fun _ => { pageState := { url := "u" }, live := fun _ => [] }) 3
        [{ stepNumber := 0, action := ActionExecuted.navigate "u",
           reasoning := "Initial page load", screenshotPath := "step-0-initial.png" },
         { stepNumber := 1, action := ActionExecuted.navigate "u",
           reasoning := "r", screenshotPath := screenshotName 1 "navigate" }] false =
        loopGo (fun _ => { action := "navigate", reasoning := "r" })
          (fun _ => { pageState := { url := "u" }, live := fun _ => [] }) 3
          [{ stepNumber := 0, action := ActionExecuted.navigate "u",
             reasoning := "Initial page load", screenshotPath := "step-0-initial.png" },
           { stepNumber := 1, action := ActionExecuted.navigate "u",
             reasoning := "r", screenshotPath := screenshotName 1 "navigate" },
           { stepNumber := 2, action := ActionExecuted.navigate "u",
             reasoning := "r", screenshotPath := screenshotName 2 "navigate" }] false := by
      rw [loopGo.eq_def, dif_pos ⟨rfl, by decide⟩, h1]
      rfl
    have e3 : loopGo (fun _ => { action := "navigate", reasoning := "r" })
        (fun _ => { pageState := { url := "u" }, live := fun _ => [] }) 3
        [{ stepNumber := 0, action := ActionExecuted.navigate "u",
           reasoning := "Initial page load", screenshotPath := "step-0-initial.png" },
         { stepNumber := 1, action := ActionExecuted.navigate "u",
           reasoning := "r", screenshotPath := screenshotName 1 "navigate" },
         { stepNumber := 2, action := ActionExecuted.navigate "u",
           reasoning := "r", screenshotPath := screenshotName 2 "navigate" }] false =
        Except.ok
          ([{ stepNumber := 0, action := ActionExecuted.navigate "u",
              reasoning := "Initial page load", screenshotPath := "step-0-initial.png" },
            { stepNumber := 1, action := ActionExecuted.navigate "u",
              reasoning := "r", screenshotPath := screenshotName 1 "navigate" },
            { stepNumber := 2, action := ActionExecuted.navigate "u",
              reasoning := "r", screenshotPath := screenshotName 2 "navigate" }], false) := by
      rw [loopGo.eq_def, dif_neg (by decide)]
    exact (e1.trans e2).trans e3
  refine ⟨_, hrun, ?_⟩
  have h := c1_loop_exhaustion (fun _ => { action := "navigate", reasoning := "r" })
    (fun _ => { pageState := { url := "u" }, live := fun _ => [] }) 3 "u" "t" _ _
    (by omega) (fun n => ⟨by show ¬(("navigate" : String) = "complete"); decide, rfl⟩) hrun
  exact h.2.1

/-- C9: an action kind outside the closed set aborts the run with the
`Unknown action type` error, and the Acting phase issues no browser
mutation at all for that step — no click, fill, or navigation. -/
theorem c9_unknown_action (decider : ℕ → LLMDecision) (env : ℕ → IterEnv)
    (maxSteps : ℕ) (steps : List WorkflowStep)
    (hlt : steps.length < maxSteps)
    (hck : (decider steps.length).action ≠ "click")
    (hty : (decider steps.length).action ≠ "type")
    (hnv : (decider steps.length).action ≠ "navigate")
    (hcp : (decider steps.length).action ≠ "complete") :
    runStep (env steps.length) (decider steps.length) =
      ([], Except.error ("Unknown action type: " ++ (decider steps.length).action)) ∧
    loopGo decider env maxSteps steps false =
      Except.error ("Unknown action type: " ++ (decider steps.length).action) := by
  have hstep : runStep (env steps.length) (decider steps.length) =
      ([], Except.error ("Unknown action type: " ++ (decider steps.length).action)) := by
    rw [runStep, if_neg hck, if_neg hty, if_neg hnv, if_neg hcp]
  refine ⟨hstep, ?_⟩
  rw [loopGo.eq_def, dif_pos ⟨rfl, by simpa [getCurrentStepNumber] using hlt⟩]
  show (match runStep (env steps.length) (decider steps.length) with
    | (_, Except.error e) => Except.error e
    | (_, Except.ok (act, comp)) => _) = _
  rw [hstep]

/-- Closed instance of `c9_unknown_action`: a decision with action kind
`delete` aborts the loop before any browser interaction. -/
theorem c9_witness :
    loopGo (fun _ => { action := "delete", reasoning := "r" })
        (fun _ => { pageState := { url := "u" }, live := fun _ => [] }) 2
        (initialSteps "u") false =
      Except.error "Unknown action type: delete" := by
  have h := (c9_unknown_action (fun _ => { action := "delete", reasoning := "r" })
    (fun _ => { pageState := { url := "u" }, live := fun _ => [] }) 2 (initialSteps "u")
    (by decide)
    (by show ¬(("delete" : String) = "click"); decide)
    (by show ¬(("delete" : String) = "type"); decide)
    (by show ¬(("delete" : String) = "navigate"); decide)
    (by show ¬(("delete" : String) = "complete"); decide)).2
  exact h

/-- C10: when the decision engine returns a `navigate` action the Acting
phase issues no browser mutation (in particular no navigation — the page is
left unchanged), and the recorded `ActionExecuted` is a navigate whose url
is the pre-action observation's url. -/
theorem c10_navigate_noop (env : IterEnv) (d : LLMDecision)
    (h : d.action = "navigate") :
    runStep env d =
      ([], Except.ok (ActionExecuted.navigate env.pageState.url, d.completed)) := by
  rw [runStep, if_neg (by rw [h]; decide), if_neg (by rw [h]; decide), if_pos h]

/-- Closed instance of `c10_navigate_noop`: the recorded url is the
observation's url, untouched by the decision. -/
theorem c10_witness :
    runStep { pageState := { url := "https://pre.example" }, live := fun _ => [] }
        { action := "navigate", reasoning := "r" } =
      ([], Except.ok (ActionExecuted.navigate "https://pre.example", false)) :=
  c10_navigate_noop
    { pageState := { url := "https://pre.example" }, live := fun _ => [] }
    { action := "navigate", reasoning := "r" } rfl

/-! ## Run-level cleanup (`Agent.execute`, agent.ts lines 28–70) -/

/-- Run-level operations of `Agent.execute` visible to the cleanup claim. -/
inductive RunEffect where
  | stateInit
  | browserInit
  | navigateTo (url : String)
  | captureInitial
  | exportSummaryArtifact
  | keepAlivePause
  | errorScreenshot
  | closeBrowser
deriving DecidableEq, Repr

/-- An effectful computation: the ordered trace of run effects it emitted
and its outcome. -/
abbrev EffA (α : Type) := List RunEffect × Except String α

def effEmit (e : RunEffect) : EffA Unit := ([e], Except.ok ())

/-- Sequencing: a thrown error short-circuits the rest (JS `await`
sequencing inside `try`). -/
def effBind {α β : Type} (m : EffA α) (f : α → EffA β) : EffA β :=
  match m with
  | (t, Except.error e) => (t, Except.error e)
  | (t, Except.ok a) => (t ++ (f a).1, (f a).2)

/-- JS `try { m } catch (e) { handler e }` where the handler may rethrow. -/
def effTryCatch {α : Type} (m : EffA α) (handler : String → EffA α) : EffA α :=
  match m with
  | (t, Except.ok a) => (t, Except.ok a)
  | (t, Except.error e) => (t ++ (handler e).1, (handler e).2)

/-- JS `try { m } finally { fin }`: the finalizer always runs; its own
error (never produced here) would replace the result. -/
def effFinally {α : Type} (m : EffA α) (fin : EffA Unit) : EffA α :=
  (m.1 ++ fin.1,
    match fin.2 with
    | Except.error e => Except.error e
    | Except.ok _ => m.2)

/-- `Agent.execute` (agent.ts lines 28–70): state/browser initialization,
then `try { determineInitialUrl; navigate; captureInitialState;
executeWorkflowLoop; exportSummary; keepAlive } catch { error screenshot;
rethrow } finally { browser.close() }`.  The body from the workflow loop on
is abstracted by `body` (its effect trace and outcome). -/
def executeRun (url : String) (body : EffA Unit) : EffA Unit :=
  effBind (effEmit RunEffect.stateInit) (fun _ =>
  effBind (effEmit RunEffect.browserInit) (fun _ =>
  effFinally
    (effTryCatch
      (effBind (effEmit (RunEffect.navigateTo url)) (fun _ =>
       effBind (effEmit RunEffect.captureInitial) (fun _ =>
       effBind body (fun _ =>
       effBind (effEmit RunEffect.exportSummaryArtifact) (fun _ =>
       effEmit RunEffect.keepAlivePause)))))
      (fun e => effBind (effEmit RunEffect.errorScreenshot) (fun _ => ([], Except.error e))))
    (effEmit RunEffect.closeBrowser)))

/-- C8 counterexample: when the workflow loop throws, the browser session is
closed and an error screenshot is captured, but the run summary is NOT
exported — `exportSummary` sits inside the `try`, not in the cleanup
phase — so "both cleanup actions on every exit path" fails. -/
theorem c8_counterexample :
    RunEffect.exportSummaryArtifact ∉ (executeRun "u" ([], Except.error "boom")).1 ∧
    RunEffect.closeBrowser ∈ (executeRun "u" ([], Except.error "boom")).1 ∧
    RunEffect.errorScreenshot ∈ (executeRun "u" ([], Except.error "boom")).1 ∧
    (executeRun "u" ([], Except.error "boom")).2 = Except.error "boom" := by
  decide

/-- C8 (amended): on every exit path the browser session is closed and the
original outcome propagates unchanged; the error screenshot is captured
exactly on the error path; but the summary export happens exactly on the
successful path, not on aborts. -/
theorem c8_cleanup (url : String) (body : EffA Unit)
    (hns : RunEffect.exportSummaryArtifact ∉ body.1)
    (hne : RunEffect.errorScreenshot ∉ body.1) :
    RunEffect.closeBrowser ∈ (executeRun url body).1 ∧
    (executeRun url body).2 = body.2 ∧
    (RunEffect.exportSummaryArtifact ∈ (executeRun url body).1 ↔ body.2 = Except.ok ()) ∧
    (RunEffect.errorScreenshot ∈ (executeRun url body).1 ↔
      ∃ e, body.2 = Except.error e) := by
  obtain ⟨t, res⟩ := body
  cases res with
  | ok a =>
    cases a
    simp_all [executeRun, effBind, effTryCatch, effFinally, effEmit]
  | error e =>
    simp_all [executeRun, effBind, effTryCatch, effFinally, effEmit]

/-- Closed instance of `c8_cleanup` on the successful path. -/
theorem c8_witness :
    RunEffect.closeBrowser ∈ (executeRun "u" ([], Except.ok ())).1 ∧
    RunEffect.exportSummaryArtifact ∈ (executeRun "u" ([], Except.ok ())).1 := by
  have h := c8_cleanup "u" ([], Except.ok ()) (by decide) (by decide)
  exact ⟨h.1, h.2.2.1.mpr rfl⟩

/-! ## Decision-engine retry (C7) -/

/-- Errors a decision-engine call can report. -/
inductive LLLMCallError where
  | rateLimited
  | other (msg : String)
deriving DecidableEq, Repr

/-- Modelled from the spec: the retry wrapper around decision-engine calls
(`LLMService.determineNextAction`).  The snapshot's `src/llm-service.ts` is
a stale revision — `agent.ts` calls `determineEndState` and a four-argument
`determineNextAction`, which it does not define — and the current
`LLMService`, documented as "retry logic with bounded exponential backoff
for rate limits", is not under `src/`.  Model per §5/§7: on a `RateLimited`
report the call is retried after a delay of `baseDelay * 2 ^ attempt`, at
most `maxRetries` times; other errors are not retried.  `call k` is the
outcome of the `k`-th attempt; the returned list is the backoff delays
slept. -/
def retryAux (call : ℕ → Except LLLMCallError LLMDecision) (baseDelay : ℕ) :
    ℕ → ℕ → List ℕ × Except LLLMCallError LLMDecision
  | k, 0 =>
    match call k with
    | Except.ok d => ([], Except.ok d)
    | Except.error e => ([], Except.error e)
  | k, r + 1 =>
    match call k with
    | Except.ok d => ([], Except.ok d)
    | Except.error LLLMCallError.rateLimited =>
      (baseDelay * 2 ^ k :: (retryAux call baseDelay (k + 1) r).1,
        (retryAux call baseDelay (k + 1) r).2)
    | Except.error e => ([], Except.error e)

/-- Modelled from the spec: the decision-engine call the `Deciding` state
performs, with automatic retry. -/
def determineNextActionWithRetry (call : ℕ → Except LLLMCallError LLMDecision)
    (maxRetries baseDelay : ℕ) : List ℕ × Except LLLMCallError LLMDecision :=
  retryAux call baseDelay 0 maxRetries

lemma retryAux_ok_now (call : ℕ → Except LLLMCallError LLMDecision)
    (baseDelay i r : ℕ) (d : LLMDecision) (hok : call i = Except.ok d) :
    retryAux call baseDelay i r = ([], Except.ok d) := by
  cases r with
  | zero => rw [retryAux, hok]
  | succ r => rw [retryAux, hok]

lemma retryAux_rl_zero (call : ℕ → Except LLLMCallError LLMDecision)
    (baseDelay i : ℕ) (h0 : call i = Except.error LLLMCallError.rateLimited) :
    retryAux call baseDelay i 0 = ([], Except.error LLLMCallError.rateLimited) := by
  rw [retryAux, h0]

lemma retryAux_rl_step (call : ℕ → Except LLLMCallError LLMDecision)
    (baseDelay i r : ℕ) (h0 : call i = Except.error LLLMCallError.rateLimited) :
    retryAux call baseDelay i (r + 1) =
      (baseDelay * 2 ^ i :: (retryAux call baseDelay (i + 1) r).1,
        (retryAux call baseDelay (i + 1) r).2) := by
  rw [retryAux, h0]

lemma range_pow_shift (b k i : ℕ) :
    (List.range (k + 1)).map (fun j => b * 2 ^ (i + j)) =
      b * 2 ^ i :: (List.range k).map (fun j => b * 2 ^ (i + 1 + j)) := by
  rw [List.range_succ_eq_map]
  simp only [List.map_cons, List.map_map, Nat.add_zero]
  congr 1
  apply List.map_congr_left
  intro a _
  simp only [Function.comp_apply, Nat.succ_eq_add_one]
  rw [show i + (a + 1) = i + 1 + a from by omega]

lemma retryAux_ok (call : ℕ → Except LLLMCallError LLMDecision) (baseDelay : ℕ)
    (d : LLMDecision) :
    ∀ (k i r : ℕ), k ≤ r → call (i + k) = Except.ok d →
      (∀ j, j < k → call (i + j) = Except.error LLLMCallError.rateLimited) →
      retryAux call baseDelay i r =
        ((List.range k).map (fun j => baseDelay * 2 ^ (i + j)), Except.ok d) := by
  intro k
  induction k with
  | zero =>
    intro i r _ hok _
    rw [retryAux_ok_now call baseDelay i r d (by simpa using hok)]
    simp
  | succ k ihk =>
    intro i r hkr hok hrl
    obtain ⟨r', rfl⟩ : ∃ r', r = r' + 1 := ⟨r - 1, by omega⟩
    have h0 : call i = Except.error LLLMCallError.rateLimited := by
      have := hrl 0 (by omega)
      simpa using this
    have hih := ihk (i + 1) r' (by omega)
      (by rw [show i + 1 + k = i + (k + 1) from by omega]; exact hok)
      (by
        intro j hj
        rw [show i + 1 + j = i + (j + 1) from by omega]
        exact hrl (j + 1) (by omega))
    rw [retryAux_rl_step call baseDelay i r' h0, hih, range_pow_shift baseDelay k i]

lemma retryAux_exhaust (call : ℕ → Except LLLMCallError LLMDecision) (baseDelay : ℕ) :
    ∀ (r i : ℕ), (∀ j, j ≤ r → call (i + j) = Except.error LLLMCallError.rateLimited) →
      retryAux call baseDelay i r =
        ((List.range r).map (fun j => baseDelay * 2 ^ (i + j)),
          Except.error LLLMCallError.rateLimited) := by
  intro r
  induction r with
  | zero =>
    intro i hrl
    have h0 : call i = Except.error LLLMCallError.rateLimited := by
      have := hrl 0 (by omega)
      simpa using this
    rw [retryAux_rl_zero call baseDelay i h0]
    simp
  | succ r ihr =>
    intro i hrl
    have h0 : call i = Except.error LLLMCallError.rateLimited := by
      have := hrl 0 (by omega)
      simpa using this
    have hih := ihr (i + 1) (by
      intro j hj
      rw [show i + 1 + j = i + (j + 1) from by omega]
      exact hrl (j + 1) (by omega))
    rw [retryAux_rl_step call baseDelay i r h0, hih, range_pow_shift baseDelay r i]

/-- C7 (spec-modelled): a rate-limited decision call is retried with
bounded exponential backoff (delay `baseDelay * 2 ^ attempt` before each
retry); if some attempt within the budget succeeds the error is not
surfaced and the loop resumes from the same Deciding state with the
decision that attempt produced; only when every attempt in the budget is
rate-limited does the error surface. -/
theorem c7_retry (call : ℕ → Except LLLMCallError LLMDecision)
    (maxRetries baseDelay : ℕ) :
    (∀ k d, k ≤ maxRetries → call k = Except.ok d →
      (∀ j, j < k → call j = Except.error LLLMCallError.rateLimited) →
      determineNextActionWithRetry call maxRetries baseDelay =
        ((List.range k).map (fun j => baseDelay * 2 ^ j), Except.ok d)) ∧
    ((∀ j, j ≤ maxRetries → call j = Except.error LLLMCallError.rateLimited) →
      determineNextActionWithRetry call maxRetries baseDelay =
        ((List.range maxRetries).map (fun j => baseDelay * 2 ^ j),
          Except.error LLLMCallError.rateLimited)) := by
  constructor
  · intro k d hk hok hrl
    unfold determineNextActionWithRetry
    have h := retryAux_ok call baseDelay d k 0 maxRetries hk (by simpa using hok)
      (by intro j hj; simpa using hrl j hj)
    rw [h]
    simp
  · intro hrl
    unfold determineNextActionWithRetry
    have h := retryAux_exhaust call baseDelay maxRetries 0
      (by intro j hj; simpa using hrl j hj)
    rw [h]
    simp

/-- Closed instance of `c7_retry`: the first attempt is rate-limited, the
second succeeds after one backoff delay of `baseDelay * 2 ^ 0`; no error is
surfaced. -/
theorem c7_witness :
    determineNextActionWithRetry
        (fun k => if k = 0 then Except.error LLLMCallError.rateLimited
                  else Except.ok { action := "complete" }) 3 1000 =
      ([1000], Except.ok { action := "complete" }) := by
  have h := (c7_retry
    (fun k => if k = 0 then Except.error LLLMCallError.rateLimited
              else Except.ok { action := "complete" }) 3 1000).1 1
    { action := "complete" } (by omega) (by decide)
    (by
      intro j hj
      have hj0 : j = 0 := by omega
      subst hj0
      rfl)
  rw [h]
  decide

end UIW
